import Mathlib

/-!
Verification development for the opensearch-to-webext conversion tool.

The repository contains three near-duplicate evolutions of the same
Node.js program:

* `src/index.js`, first half (the earliest variant; referred to here with
  the `v1` marker) — defines `paramsToStr` that always prepends `?`.
* `src/index.js`, second half (the latest variant; referred to here with
  the `indexjs` marker) — defines `normaliseLocale`, `parseUrlObj`,
  `typeToExtension`, `singleLocaleExtension`, `parseEngine`, `allEngines`.
* `src/unnamed/part_000` (the middle variant; referred to here with the
  `part000` marker) — defines its own `parseUrlObj`, `typeToExtension`
  and `parseEngine`.

The pure string and list computations of those programs are embedded
directly below.  JavaScript strings are modelled as Lean `String`
(operating on `List Char`), JavaScript `undefined`/missing properties as
`Option`, thrown exceptions as `Except` with the single error value
`JsError.thrown` (the programs never catch an exception, so the thrown
value is unobservable), and the filesystem and console side effects as
explicit event traces (`Ev`).  The external XML-to-JSON conversion
library is out of scope; its result is modelled by the `SearchPlugin`
record carried alongside the raw file text in `RawFile`.
-/

/-! ## JavaScript string primitives -/

/-- Index of the first occurrence of `pat` inside the remaining
characters, mirroring `String.prototype.indexOf` (the `Option` is `none`
where JavaScript returns `-1`). -/
def idxOfAux (pat : List Char) : List Char → Nat → Option Nat
  | [], i => if pat.isPrefixOf ([] : List Char) then some i else none
  | c :: rest, i =>
    if pat.isPrefixOf (c :: rest) then some i else idxOfAux pat rest (i + 1)

/-- Embedding of `s.indexOf(pat)` for strings, as an `Option Nat`. -/
def jsIndexOfSub (s pat : String) : Option Nat :=
  idxOfAux pat.toList s.toList 0

/-- Embedding of the `s.indexOf(pat) !== -1` test. -/
def jsContains (s pat : String) : Bool :=
  (jsIndexOfSub s pat).isSome

/-- Embedding of `s.replace(pat, rep)` with a plain-string pattern: JavaScript
replaces only the first occurrence. -/
def jsReplace (s pat rep : String) : String :=
  match jsIndexOfSub s pat with
  | none => s
  | some i =>
    String.mk (s.toList.take i ++ rep.toList ++ s.toList.drop (i + pat.toList.length))

/-- Embedding of `s.startsWith(p)`. -/
def jsStartsWith (s p : String) : Bool :=
  p.toList.isPrefixOf s.toList

/-- Embedding of `s.slice(start, -4)`: the characters from `start` (inclusive) to
four before the end (exclusive); empty when the range is empty. -/
def jsSliceToNeg4 (s : String) (start : Nat) : String :=
  String.mk ((s.toList.drop start).take (s.toList.length - 4 - start))

/-- Embedding of `s.substr(-4)`: the last four characters (the whole string when it
is shorter). -/
def jsLast4 (s : String) : String :=
  String.mk (s.toList.drop (s.toList.length - 4))

/-- Embedding of the basename computation `file.split(slash).pop()`:
the part after the last slash. -/
def lastComponent (s : String) : String :=
  String.mk (((s.toList.reverse).takeWhile (fun c => c ≠ '/')).reverse)

/-- Embedding of `s.trim()`. -/
def jsTrim (s : String) : String :=
  String.mk (((s.toList.dropWhile Char.isWhitespace).reverse.dropWhile
    Char.isWhitespace).reverse)

/-- Embedding of `Array.prototype.join(sep)` for a list of strings. -/
def jsJoin (sep : String) : List String → String
  | [] => ""
  | [x] => x
  | x :: y :: xs => x ++ sep ++ jsJoin sep (y :: xs)

/-- Property lookup on a JavaScript object literal used as a table:
the value of the first matching key. -/
def jsObjGet (table : List (String × String)) (t : String) : Option String :=
  match table with
  | [] => none
  | (k, v) :: rest => if t = k then some v else jsObjGet rest t

/-- The mime type carried by a data URI, as decoded by the external
`data-uri-to-buffer` library for URIs that carry an explicit type:
the text between `data:` and the first `;` or `,`. -/
def dataUriType (uri : String) : String :=
  String.mk ((uri.toList.drop 5).takeWhile (fun c => c ≠ ';' ∧ c ≠ ','))

/-! ## Data model

The shape of the JSON produced by the external `xml-to-json-promise`
conversion of an OpenSearch descriptor, restricted to the properties the
programs read.  A JavaScript property that may be absent is an
`Option`. -/

/-- One `<Param>` element: `param.$` carries `name` and `value`. -/
structure Param where
  name : String
  value : String
deriving DecidableEq

/-- One `<MozParam>` element: `param.$` carries `name`, `value` and an
optional `purpose` attribute. -/
structure MozParam where
  name : String
  value : String
  purpose : Option String
deriving DecidableEq

/-- One `<Url>` element: its attributes (`urlObj.$`) and child
elements. -/
structure UrlObj where
  template : String
  method : Option String
  type : Option String
  rel : Option String
  Param : Option (List Param)
  MozParam : Option (List MozParam)
deriving DecidableEq

/-- The parsed `SearchPlugin`/`OpenSearchDescription` root element,
restricted to the properties the programs read.  `ShortName`,
`Description` and `SearchForm` are lists of text nodes; `Image` holds
the image URI text (`Image[0]._`). -/
structure SearchPlugin where
  ShortName : Option (List String)
  Description : Option (List String)
  SearchForm : Option (List String)
  Url : Option (List UrlObj)
  Image : Option (List String)
deriving DecidableEq

/-- One input descriptor file: its path, its raw text (used for the
root-element-marker scan) and the external XML conversion of the text
after the marker. -/
structure RawFile where
  path : String
  content : String
  plugin : SearchPlugin
deriving DecidableEq

/-- All uncaught JavaScript exceptions (TypeError on property access of
`undefined`, string throws); the programs never catch one, so the
thrown value is unobservable and collapsed to a single constructor. -/
inductive JsError
  | thrown
deriving DecidableEq

/-- The regex `/<SearchPlugin|<OpenSearchDescription/` applied by
`exec`: the index of the leftmost occurrence of either root-element
marker, `none` when the regex does not match. -/
def findRootMarker (s : String) : Option Nat :=
  match jsIndexOfSub s "<SearchPlugin", jsIndexOfSub s "<OpenSearchDescription" with
  | none, o => o
  | some i, none => some i
  | some i, some j => some (min i j)

/-! ## Endpoint resolution

`parseUrlObj` of `src/unnamed/part_000` (lines 222-255) and of the
second program in `src/index.js` (lines 646-684), plus the
`paramsToStr` helpers of all three variants. -/

/-- The `name=value` pushes joined by `&` (`params.join` with `&`), shared by
every variant (`paramsToStr` in `part_000` and the second `index.js`
program builds exactly this string). -/
def joinAmp (ps : List Param) : String :=
  jsJoin "&" (ps.map (fun p => p.name ++ "=" ++ p.value))

/-- Function `paramsToStr` of the first program in `src/index.js`
(lines 166-175): empty for no params, otherwise a literal `?` followed
by the `&`-joined pairs, regardless of the template. -/
def v1_paramsToStr (ps : List Param) : String :=
  if ps.isEmpty then "" else "?" ++ joinAmp ps

/-- The object built by `parseUrlObj` in `src/unnamed/part_000`:
`params` holds the reshaped MozParams (a list of single-key
`{name: value}` objects, modelled as name-value pairs). -/
structure UrlResultA where
  url : String
  post_params : Option String
  params : Option (List (String × String))
deriving DecidableEq

/-- Function `parseUrlObj` of `src/unnamed/part_000` (lines 222-255): the
first `http:` of the template becomes `https:`; for a non-POST method with
`<Param>` children the joined pairs are appended after `?` when the url
has no `?` yet and after nothing otherwise; for POST the pairs become
`post_params`; MozParams are reshaped into `{name: value}` objects and
stored (when non-empty) in `params`. -/
def part000_parseUrlObj (u : UrlObj) : UrlResultA :=
  { url :=
      let url0 := jsReplace u.template "http:" "https:"
      match u.Param with
      | some ps =>
        if u.method ≠ some "POST" then
          url0 ++ (if jsContains url0 "?" then "" else "?") ++ joinAmp ps
        else url0
      | none => url0
    post_params :=
      match u.Param with
      | some ps => if u.method = some "POST" then some (joinAmp ps) else none
      | none => none
    params :=
      match u.MozParam with
      | some l =>
        let mapped := l.map (fun z => (z.name, z.value))
        if mapped.length = 0 then none else some mapped
      | none => none }

/-- The object built by `parseUrlObj` in the second program of
`src/index.js`: `params` holds the untouched `param.$` records of the
standard `<Param>` children, `mozParams` the untouched `param.$`
records of the `<MozParam>` children (always assigned, because an empty
array is truthy). -/
structure UrlResultB where
  url : String
  params : Option (List Param)
  post_params : Option String
  mozParams : List MozParam
deriving DecidableEq

/-- Function `parseUrlObj` of the second program in `src/index.js`
(lines 646-684): the url is the template verbatim (no scheme rewrite,
no appending); non-POST `<Param>` children are kept as records in
`params` when non-empty; POST `<Param>` children are joined into
`post_params`; `<MozParam>` children pass through in `mozParams`. -/
def indexjs_parseUrlObj (u : UrlObj) : UrlResultB :=
  { url := u.template
    params :=
      match u.Param with
      | some ps =>
        if u.method ≠ some "POST" then
          if ps.length = 0 then none else some ps
        else none
      | none => none
    post_params :=
      match u.Param with
      | some ps => if u.method = some "POST" then some (joinAmp ps) else none
      | none => none
    mozParams :=
      match u.MozParam with
      | some l => l
      | none => [] }

/-- Embedding of the suggestion-type test on `obj.$.type` against the
MIME type `application/x-suggestions+json`. -/
def isSuggestionType (u : UrlObj) : Bool :=
  u.type = some "application/x-suggestions+json"

/-! ## Locale resolution -/

/-- Function `normaliseLocale` of the second program in `src/index.js`
(lines 247-254): take the basename; with no hyphen the result is `en`,
otherwise the characters between the first hyphen and the `.xml`
extension, verbatim. -/
def normaliseLocale (file : String) : String :=
  let filename := lastComponent file
  match jsIndexOfSub filename "-" with
  | none => "en"
  | some i => jsSliceToNeg4 filename (i + 1)

/-- The locale computation inside `parseEngine` of
`src/unnamed/part_000` (lines 104-114): paths matching the exceptions
regex `/(google-2018|bbc-alba|yahoo-jp-auctions)/` are treated as
hyphen-free; otherwise the characters of the full path between its
first hyphen and the extension; then `yahoo-jp-auctions` paths are
forced to `jp` and `amazondotcn` paths to `cn`. -/
def part000_locale (file : String) : String :=
  let exceptional :=
    jsContains file "google-2018" || jsContains file "bbc-alba" ||
      jsContains file "yahoo-jp-auctions"
  let idx := if exceptional then none else jsIndexOfSub file "-"
  let locale :=
    match idx with
    | some i => jsSliceToNeg4 file (i + 1)
    | none => "en"
  let locale := if jsContains file "yahoo-jp-auctions" then "jp" else locale
  if jsContains file "amazondotcn" then "cn" else locale

/-! ## Icon content-type tables -/

/-- The object literal inside `typeToExtension` of
`src/unnamed/part_000` (lines 201-206). -/
def part000_extTable : List (String × String) :=
  [("image/x-icon", "ico"), ("image/png", "png")]

/-- Function `typeToExtension` of `src/unnamed/part_000` (lines 201-206): a bare
object lookup, `undefined` (here `none`) for any unlisted type. -/
def part000_typeToExtension (t : String) : Option String :=
  jsObjGet part000_extTable t

/-- The object literal inside `typeToExtension` of the second program
in `src/index.js` (lines 616-630). -/
def indexjs_extTable : List (String × String) :=
  [("image/ico", "ico"), ("image/icon", "ico"), ("image/x-ico", "ico"),
   ("image/x-icon", "ico"), ("image/png", "png"), ("image/gif", "gif")]

/-- Function `typeToExtension` of the second program in `src/index.js`
(lines 616-630): the table value when the type is a key, otherwise an
uncaught throw of the string `Cant find <type>`. -/
def indexjs_typeToExtension (t : String) : Except String String :=
  match jsObjGet indexjs_extTable t with
  | some e => .ok e
  | none => .error ("Cant find " ++ t)

/-! ## Endpoint selection and per-file processing (part_000) -/

/-- Function `getSearchUrl` of `src/unnamed/part_000` (lines 208-212):
`searchPlugin.Url.find` of the first non-suggestion `<Url>`, fed to
`parseUrlObj`.  A missing `Url` property or an empty find result makes
the property accesses throw. -/
def part000_getSearchUrl (p : SearchPlugin) : Except JsError UrlResultA :=
  match p.Url with
  | none => .error .thrown
  | some urls =>
    match urls.find? (fun u => ¬ isSuggestionType u) with
    | none => .error .thrown
    | some u => .ok (part000_parseUrlObj u)

/-- Function `getSuggestUrl` of `src/unnamed/part_000` (lines 214-220): the
first suggestion-typed `<Url>` through `parseUrlObj`, or `false`
(here `none`) when absent. -/
def part000_getSuggestUrl (p : SearchPlugin) : Except JsError (Option UrlResultA) :=
  match p.Url with
  | none => .error .thrown
  | some urls => .ok ((urls.find? isSuggestionType).map part000_parseUrlObj)

/-- The `messages.json` catalog written per locale by `parseEngine` of
`src/unnamed/part_000` (lines 124-135), restricted to the computed
fields. -/
structure LocaleMessages where
  extensionName : Option String
  extensionDescription : Option String
  url_lang : String
  searchUrl : String
  suggestUrl : Option String
deriving DecidableEq

/-- The per-file body of the `parseEngine` loop in
`src/unnamed/part_000` (lines 104-139): the root-element-marker scan
(`match.index` of a failed `exec` throws), then the message-catalog
construction, every access to a missing required property
(`ShortName`, `Description`, `Url`, a primary `<Url>`) throwing. -/
def part000_processFile (f : RawFile) : Except JsError LocaleMessages :=
  match findRootMarker f.content with
  | none => .error .thrown
  | some _ =>
    match f.plugin.ShortName with
    | none => .error .thrown
    | some sn =>
      match f.plugin.Description with
      | none => .error .thrown
      | some ds =>
        match part000_getSearchUrl f.plugin with
        | .error e => .error e
        | .ok su =>
          match part000_getSuggestUrl f.plugin with
          | .error e => .error e
          | .ok sg =>
            .ok ⟨sn.head?, ds.head?, part000_locale f.path, su.url,
                  sg.map (fun r => r.url)⟩

/-- The `for (const file of openSearchFiles)` loop of `parseEngine` in
`src/unnamed/part_000`: strictly sequential, an uncaught throw for any
file aborts the loop and the whole `parseEngine` call. -/
def part000_parseEngineFiles : List RawFile → Except JsError (List LocaleMessages)
  | [] => .ok []
  | f :: fs =>
    match part000_processFile f with
    | .error e => .error e
    | .ok m =>
      match part000_parseEngineFiles fs with
      | .error e => .error e
      | .ok ms => .ok (m :: ms)

/-- The `allEngines` driver (`src/unnamed/part_000` lines 281-294,
`src/index.js` lines 710-738): `await parseEngine(...)` per engine in
sequence inside one async function, so a rejected `parseEngine`
promise aborts the whole batch. -/
def part000_allEngines : List (List RawFile) → Except JsError (List (List LocaleMessages))
  | [] => .ok []
  | g :: gs =>
    match part000_parseEngineFiles g with
    | .error e => .error e
    | .ok ms =>
      match part000_allEngines gs with
      | .error e => .error e
      | .ok rest => .ok (ms :: rest)

/-! ## Default-locale selection -/

/-- The per-variant lists of locales accumulated by the `parseEngine`
loop of `src/unnamed/part_000`, in file-processing order. -/
def part000_locales (files : List RawFile) : List String :=
  files.map (fun f => part000_locale f.path)

/-- The locales accumulated by the multi-locale `parseEngine` loop of
the second program in `src/index.js`, in file-processing order. -/
def indexjs_locales (files : List RawFile) : List String :=
  files.map (fun f => normaliseLocale f.path)

/-- Embedding of the ternary choosing `en` when `locales.includes` finds
it and `locales[0]` otherwise (`src/unnamed/part_000`
line 161, `src/index.js` line 567); `locales[0]` of an empty array is
`undefined`, hence the `Option`. -/
def defaultLocale (locales : List String) : Option String :=
  if locales.contains "en" then some "en" else locales.head?

/-- The guard on `default_locale` (`src/unnamed/part_000` lines 160-162,
`src/index.js` lines 566-568): an existing `manifest.default_locale`
wins; otherwise the computed default. -/
def manifestDefaultLocale (existing : Option String) (locales : List String) :
    Option String :=
  match existing with
  | some d => some d
  | none => defaultLocale locales

/-! ## Effect traces

The filesystem and console actions of `parseEngine` and
`singleLocaleExtension`, in program order.  Read-only directory
listings (`glob`) carry no event; an uncaught throw ends the trace with
`Ev.threw`. -/

/-- One observable side effect. -/
inductive Ev
  | log (msg : String)
  | logError (msg : String)
  | warn (msg : String)
  | mkdirp (path : String)
  | readFile (path : String)
  | writeFile (path : String)
  | copyFile (src dst : String)
  | threw
deriving DecidableEq

/-- Function `getSearchForm` of the second program in `src/index.js`
(lines 264-284): the `SearchForm` text when present, else the
`rel="searchform"` `<Url>` resolved through `parseUrlObj` with its
params appended after `?` when the url has no `?` yet and after
nothing otherwise; `false` (here `none`) when neither exists; a
missing `Url` property throws. -/
def indexjs_getSearchForm (p : SearchPlugin) : Except JsError (Option String) :=
  match p.SearchForm with
  | some l => .ok l.head?
  | none =>
    match p.Url with
    | none => .error .thrown
    | some urls =>
      match urls.find? (fun u => u.rel = some "searchform") with
      | none => .ok none
      | some u =>
        let r := indexjs_parseUrlObj u
        match r.params with
        | some ps =>
          .ok (some (r.url ++ (if jsContains r.url "?" then "" else "?") ++ joinAmp ps))
        | none => .ok (some r.url)

/-- Function `getSearchUrl` of the second program in `src/index.js`
(lines 632-636). -/
def indexjs_getSearchUrl (p : SearchPlugin) : Except JsError UrlResultB :=
  match p.Url with
  | none => .error .thrown
  | some urls =>
    match urls.find? (fun u => ¬ isSuggestionType u) with
    | none => .error .thrown
    | some u => .ok (indexjs_parseUrlObj u)

/-- The icon block shared by `singleLocaleExtension` (lines 341-364)
and the multi-locale tail of `parseEngine` (lines 575-601) in the
second program of `src/index.js`: the events it performs and the value
stored under key 16 of `manifest.icons` when one is.  An inline icon whose
content type `typeToExtension` rejects throws; a remote `http` icon
only sets `favicon_url`; an unrecognized shape only warns. -/
def indexjs_iconStep (tmpDir geckoPath : String) (p : SearchPlugin) :
    List Ev × Option String :=
  match p.Image with
  | none => ([], none)
  | some [] => ([.threw], none)
  | some (uri0 :: _) =>
    let uri := jsTrim uri0
    if jsStartsWith uri "http" then ([], none)
    else if jsStartsWith uri "data" then
      match indexjs_typeToExtension (dataUriType uri) with
      | .ok e => ([.writeFile (tmpDir ++ "favicon." ++ e)], some ("favicon." ++ e))
      | .error _ => ([.threw], none)
    else if jsStartsWith uri "resource" then
      ([.copyFile (geckoPath ++ "mail/components/search/searchplugins/images/" ++
          lastComponent uri) (tmpDir ++ "favicon" ++ jsLast4 uri)],
        some ("favicon" ++ jsLast4 uri))
    else ([.warn ("Unsupported image type " ++ uri)], none)

/-- Function `singleLocaleExtension` of the second program in `src/index.js`
(lines 286-375): no staging-directory existence check; `mkdirp` and the
file read happen unconditionally, then the descriptor accesses (each
able to throw), the icon block, the unconditional
assignment of key 16 of `manifest.icons` into
`manifest.web_accessible_resources` (which
throws when no icon was materialized), and the manifest write. -/
def indexjs_singleOps (engine geckoPath : String) (f : RawFile) : List Ev :=
  let engine2 := jsReplace (lastComponent f.path) ".xml" ""
  let tmpDir := "tmp/" ++ engine2 ++ "/"
  .log ("processing: " ++ engine) :: .mkdirp tmpDir :: .readFile f.path ::
  (match findRootMarker f.content with
   | none => [.threw]
   | some _ =>
     if f.plugin.ShortName.isNone then [.threw]
     else
       match indexjs_getSearchForm f.plugin with
       | .error _ => [.threw]
       | .ok _ =>
         match indexjs_getSearchUrl f.plugin with
         | .error _ => [.threw]
         | .ok _ =>
           if f.plugin.Description.isNone then [.threw]
           else
             let step := indexjs_iconStep tmpDir geckoPath f.plugin
             if step.1.contains .threw then step.1
             else
               match step.2 with
               | none => step.1 ++ [.threw]
               | some _ =>
                 step.1 ++ [.writeFile (tmpDir ++ "manifest.json"),
                   .log "Complete! written"])

/-- The checks the multi-locale `parseEngine` loop body of the second
program in `src/index.js` (lines 424-479) runs for one file before its
`messages.json` write: marker scan, `ShortName`/`Description`
accesses, `getSearchUrl`, `getSearchForm`, the `throw` on any
`post_params`, and the yandex `Image` access. -/
def indexjs_fileCheck (engine : String) (f : RawFile) : Except JsError Unit :=
  match findRootMarker f.content with
  | none => .error .thrown
  | some _ =>
    if f.plugin.ShortName.isNone then .error .thrown
    else if f.plugin.Description.isNone then .error .thrown
    else
      match indexjs_getSearchUrl f.plugin with
      | .error e => .error e
      | .ok su =>
        match indexjs_getSearchForm f.plugin with
        | .error e => .error e
        | .ok _ =>
          if su.post_params.isSome then .error .thrown
          else if engine = "yandex" ∧ (f.plugin.Image.getD []).head? = none then
            .error .thrown
          else .ok ()

/-- The multi-locale per-file loop of `parseEngine` in the second
program of `src/index.js` (lines 424-479): sequential; a throw ends the
trace. -/
def indexjs_multiLoop (engine tmpDir : String) : List RawFile → List Ev
  | [] => []
  | f :: fs =>
    .readFile f.path ::
    (match indexjs_fileCheck engine f with
     | .error _ => [.threw]
     | .ok _ =>
       .mkdirp (tmpDir ++ "_locales/" ++ normaliseLocale f.path ++ "/") ::
       .writeFile (tmpDir ++ "_locales/" ++ normaliseLocale f.path ++ "/messages.json") ::
       indexjs_multiLoop engine tmpDir fs)

/-- The multi-locale tail of `parseEngine` in the second program of
`src/index.js` (lines 484-613): re-read of the representative first
file, the yandex manifest override (which skips the icon block), else
the icon block followed by the `web_accessible_resources` guard (a
throw when no icon was materialized), then the manifest write. -/
def indexjs_multiPost (engine geckoPath tmpDir : String) (f0 : RawFile) : List Ev :=
  .readFile f0.path ::
  (if engine = "yandex" then
    [.writeFile (tmpDir ++ "manifest.json"), .log "Complete! written"]
  else
    let step := indexjs_iconStep tmpDir geckoPath f0.plugin
    if step.1.contains .threw then step.1
    else
      match step.2 with
      | none => step.1 ++ [.threw]
      | some _ =>
        step.1 ++ [.writeFile (tmpDir ++ "manifest.json"), .log "Complete! written"])

/-- The file-list fixups of `parseEngine` in the second program of
`src/index.js` (lines 386-395).  `globbed` stands for the files the
searchplugins folder holds that match the glob of `engine` followed by
`*.xml`; the
`yahoo-jp` branch replaces the glob result with the single literal
`yahoo-jp.xml` path (modelled as selecting that path from the folder),
the `amazon` branch filters out `amazondotcom`/`amazondotcn`
matches. -/
def indexjs_selectFiles (engine geckoPath : String) (globbed : List RawFile) :
    List RawFile :=
  if engine = "yahoo-jp" then
    globbed.filter (fun f =>
      f.path = geckoPath ++ "mail/components/search/searchplugins/yahoo-jp.xml")
  else if engine = "amazon" then
    globbed.filter (fun f =>
      ¬ jsContains f.path "amazondotcom" && ¬ jsContains f.path "amazondotcn")
  else globbed

/-- The remainder of `parseEngine` in the second program of
`src/index.js` after the file-list fixups: no files reports; a single
file is delegated to `singleLocaleExtension` with no staging-directory
check; two or more files log, then stop when the staging directory
exists, and only otherwise create it and write into it. -/
def indexjs_dispatchOps (engine geckoPath : String) (tmpDirExists : Bool) :
    List RawFile → List Ev
  | [] => [.logError "No files to convert found"]
  | [f] => indexjs_singleOps engine geckoPath f
  | f0 :: f1 :: fs =>
    .log ("Processing " ++ engine) ::
    (if tmpDirExists then
      [.logError ("Destination file tmp/" ++ engine ++ "/ already exists")]
    else
      .mkdirp ("tmp/" ++ engine ++ "/") :: .readFile f0.path ::
      (match findRootMarker f0.content with
       | none => [.threw]
       | some _ =>
         indexjs_multiLoop engine ("tmp/" ++ engine ++ "/") (f0 :: f1 :: fs) ++
         (if (f0 :: f1 :: fs).all (fun f => (indexjs_fileCheck engine f).toBool) then
           indexjs_multiPost engine geckoPath ("tmp/" ++ engine ++ "/") f0
         else [])))

/-- Function `parseEngine` of the second program in `src/index.js`
(lines 377-614) as an event trace: the hard-coded `yahoo` early return
comes before everything else, then the file-list fixups, then the
dispatch. -/
def indexjs_engineOps (engine geckoPath : String) (tmpDirExists : Bool)
    (globbed : List RawFile) : List Ev :=
  if engine = "yahoo" then []
  else
    indexjs_dispatchOps engine geckoPath tmpDirExists
      (indexjs_selectFiles engine geckoPath globbed)

/-- The icon block of `parseEngine` in `src/unnamed/part_000`
(lines 165-188); a missing `Image` property throws. -/
def part000_iconOps (tmpDir geckoPath : String) (p : SearchPlugin) : List Ev :=
  match p.Image with
  | none => [.threw]
  | some [] => [.threw]
  | some (uri0 :: _) =>
    let uri := jsTrim uri0
    if jsStartsWith uri "http" then []
    else if jsStartsWith uri "data" then
      match part000_typeToExtension (dataUriType uri) with
      | some e => [.writeFile (tmpDir ++ "favicon." ++ e)]
      | none => [.writeFile (tmpDir ++ "favicon.undefined")]
    else if jsStartsWith uri "resource" then
      [.copyFile (geckoPath ++ "browser/components/search/searchplugins/images/" ++
          lastComponent uri) (tmpDir ++ "favicon" ++ jsLast4 uri)]
    else [.warn ("Unsupported image type " ++ uri)]

/-- The per-file loop of `parseEngine` in `src/unnamed/part_000` as an
event trace. -/
def part000_loopOps (tmpDir : String) : List RawFile → List Ev
  | [] => []
  | f :: fs =>
    .readFile f.path ::
    (match part000_processFile f with
     | .error _ => [.threw]
     | .ok _ =>
       .mkdirp (tmpDir ++ "_locales/" ++ part000_locale f.path ++ "/") ::
       .writeFile (tmpDir ++ "_locales/" ++ part000_locale f.path ++ "/messages.json") ::
       part000_loopOps tmpDir fs)

/-- The tail of `parseEngine` in `src/unnamed/part_000`
(lines 141-198): re-read of the representative first file, the icon
block, then the manifest write. -/
def part000_postOps (tmpDir geckoPath : String) (f0 : RawFile) : List Ev :=
  let ic := part000_iconOps tmpDir geckoPath f0.plugin
  .readFile f0.path ::
  (if ic.contains .threw then ic
   else ic ++ [.writeFile (tmpDir ++ "manifest.json")])

/-- Function `parseEngine` of `src/unnamed/part_000` (lines 72-199) as an event
trace: the staging-directory existence check is the first action and a
hard stop (a `console.error` report, nothing thrown, no event after
it); only then are `dist/`, the staging directory and its contents
created. -/
def part000_engineOps (engine geckoPath : String) (tmpDirExists : Bool)
    (files : List RawFile) : List Ev :=
  let tmpDir := "tmp/" ++ engine ++ "/"
  if tmpDirExists then
    [.logError ("Destination file " ++ tmpDir ++ " already exists")]
  else
    .mkdirp "dist/" ::
    (match files with
     | [] => [.logError "No files to convert found"]
     | f0 :: _ =>
       .log ("Processing " ++ engine) ::
       .mkdirp tmpDir :: .mkdirp (tmpDir ++ "_locales/") ::
       (part000_loopOps tmpDir files ++
        (if files.all (fun f => (part000_processFile f).toBool) then
          part000_postOps tmpDir geckoPath f0
        else [])))

/-! ## Concrete fixtures -/

/-- A well-formed descriptor: every required field present, a GET
endpoint, an inline PNG icon. -/
def goodPlugin : SearchPlugin :=
  { ShortName := some ["Good"]
    Description := some ["A good engine"]
    SearchForm := some ["https://good.test/"]
    Url := some [⟨"https://good.test/search", none, some "text/html", none, none, none⟩]
    Image := some ["data:image/png;base64,AA"] }

/-- A well-formed English-locale input file. -/
def goodFile : RawFile :=
  { path := "/g/browser/components/search/searchplugins/good.xml"
    content := "<SearchPlugin>x</SearchPlugin>"
    plugin := goodPlugin }

/-- A well-formed French-locale input file for the same engine. -/
def goodFileFr : RawFile :=
  { path := "/g/browser/components/search/searchplugins/good-fr.xml"
    content := "<SearchPlugin>x</SearchPlugin>"
    plugin := goodPlugin }

/-- A malformed input file: neither root-element marker occurs in the
text, so the regex scan fails. -/
def badFile : RawFile :=
  { path := "/g/browser/components/search/searchplugins/good-de.xml"
    content := "<xml>no marker here</xml>"
    plugin := goodPlugin }

/-- A well-formed single-locale file for the engine `foo` under the
searchplugins folder of the second `src/index.js` program. -/
def fooFile : RawFile :=
  { path := "/g/mail/components/search/searchplugins/foo.xml"
    content := "<SearchPlugin>x</SearchPlugin>"
    plugin := goodPlugin }

/-- A well-formed `yahoo-jp.xml` file. -/
def yahooJpFile : RawFile :=
  { path := "/g/mail/components/search/searchplugins/yahoo-jp.xml"
    content := "<SearchPlugin>x</SearchPlugin>"
    plugin := goodPlugin }

/-- A well-formed file whose inline icon declares the content type
`image/jpeg`, which no extension table lists. -/
def jpegIconFile : RawFile :=
  { path := "/g/mail/components/search/searchplugins/e.xml"
    content := "<SearchPlugin>x</SearchPlugin>"
    plugin := { goodPlugin with Image := some ["data:image/jpeg;base64,AA"] } }

/-- A well-formed file with no `<Image>` element at all. -/
def noImageFile : RawFile :=
  { path := "/g/mail/components/search/searchplugins/n.xml"
    content := "<SearchPlugin>x</SearchPlugin>"
    plugin := { goodPlugin with Image := none } }

/-! # Theorems -/

/-- C1 counterexample: a GET endpoint with params and a template that
already contains `?` resolves (in the `part_000` `parseUrlObj`) to the
pairs appended with no separator at all — not joined to the existing
query string with `&` as claimed. -/
theorem C1_counterexample :
    (part000_parseUrlObj ⟨"https://x.test/search?x=1", none, none, none,
        some [⟨"q", "{searchTerms}"⟩, ⟨"format", "json"⟩], none⟩).url
      = "https://x.test/search?x=1q={searchTerms}&format=json"
    ∧ "https://x.test/search?x=1q={searchTerms}&format=json"
      ≠ "https://x.test/search?x=1&q={searchTerms}&format=json" := by
  exact ⟨by decide, by decide⟩

/-- C1 (amended): for every non-POST endpoint with a `<Param>` list,
the `part_000` resolved url is the scheme-normalized template followed
by the `name=value` pairs in declaration order joined with `&`, the
separator between template and first pair being `?` when the
normalized template contains no `?` and the empty string (the pairs
are appended directly) when it already contains one; the first
`paramsToStr` of the first `src/index.js` program instead always prepends `?` to a
non-empty pair list regardless of the template. -/
theorem C1_getEncoding (t : String) (m ty r : Option String) (ps : List Param)
    (mz : Option (List MozParam)) (h : m ≠ some "POST") :
    (part000_parseUrlObj ⟨t, m, ty, r, some ps, mz⟩).url
      = jsReplace t "http:" "https:" ++
        (if jsContains (jsReplace t "http:" "https:") "?" then "" else "?") ++
        joinAmp ps
    ∧ (ps ≠ [] → v1_paramsToStr ps = "?" ++ joinAmp ps) := by
  constructor
  · have hu : (part000_parseUrlObj ⟨t, m, ty, r, some ps, mz⟩).url
        = if m ≠ some "POST" then
            jsReplace t "http:" "https:" ++
              (if jsContains (jsReplace t "http:" "https:") "?" then "" else "?") ++
              joinAmp ps
          else jsReplace t "http:" "https:" := rfl
    rw [hu, if_pos h]
  · intro hps
    match ps, hps with
    | p :: ps, _ => rfl

/-- C1 witness: the amended encoding applied to the template without a
query string and to the example params of the spec. -/
theorem C1_witness :
    (part000_parseUrlObj ⟨"https://x.test/search", none, none, none,
        some [⟨"q", "{searchTerms}"⟩, ⟨"format", "json"⟩], none⟩).url
      = "https://x.test/search?q={searchTerms}&format=json"
    ∧ v1_paramsToStr [⟨"q", "{searchTerms}"⟩, ⟨"format", "json"⟩]
      = "?q={searchTerms}&format=json" := by
  constructor
  · rw [(C1_getEncoding "https://x.test/search" none none none
      [⟨"q", "{searchTerms}"⟩, ⟨"format", "json"⟩] none (by decide)).1]
    decide
  · rw [(C1_getEncoding "https://x.test/search" none none none
      [⟨"q", "{searchTerms}"⟩, ⟨"format", "json"⟩] none (by decide)).2 (by decide)]
    decide

/-- C2 counterexample: the `parseUrlObj` of the second `src/index.js`
program copies the template verbatim, so an `http:` template is not
rewritten to `https:`. -/
theorem C2_counterexample :
    (indexjs_parseUrlObj ⟨"http://x.test/", none, none, none, none, none⟩).url
      = "http://x.test/"
    ∧ "http://x.test/" ≠ "https://x.test/" := by
  exact ⟨rfl, by decide⟩

/-- C2 (amended): only the `part_000` resolver rewrites the first
literal `http:` occurrence of the template to `https:` (its url is
always the rewritten template followed by some suffix, for every
method), and a template with no `http:` occurrence is left unchanged
by the rewrite; the second `src/index.js` resolver performs no scheme
normalization at all — its url is the template verbatim. -/
theorem C2_schemeNormalization :
    (∀ u : UrlObj, ∃ sfx : String,
      (part000_parseUrlObj u).url = jsReplace u.template "http:" "https:" ++ sfx)
    ∧ (∀ t : String, jsContains t "http:" = false → jsReplace t "http:" "https:" = t)
    ∧ (∀ u : UrlObj, (indexjs_parseUrlObj u).url = u.template) := by
  refine ⟨?_, ?_, fun u => rfl⟩
  · intro u
    match u with
    | ⟨t, m, ty, r, none, mz⟩ =>
      exact ⟨"", (String.append_empty _).symm⟩
    | ⟨t, m, ty, r, some ps, mz⟩ =>
      by_cases h : m ≠ some "POST"
      · refine ⟨(if jsContains (jsReplace t "http:" "https:") "?" then "" else "?") ++
          joinAmp ps, ?_⟩
        have hu : (part000_parseUrlObj ⟨t, m, ty, r, some ps, mz⟩).url
            = if m ≠ some "POST" then
                jsReplace t "http:" "https:" ++
                  (if jsContains (jsReplace t "http:" "https:") "?" then "" else "?") ++
                  joinAmp ps
              else jsReplace t "http:" "https:" := rfl
        rw [hu, if_pos h, String.append_assoc]
      · refine ⟨"", ?_⟩
        have hu : (part000_parseUrlObj ⟨t, m, ty, r, some ps, mz⟩).url
            = if m ≠ some "POST" then
                jsReplace t "http:" "https:" ++
                  (if jsContains (jsReplace t "http:" "https:") "?" then "" else "?") ++
                  joinAmp ps
              else jsReplace t "http:" "https:" := rfl
        rw [hu, if_neg h, String.append_empty]
  · intro t hc
    unfold jsReplace
    cases hi : jsIndexOfSub t "http:" with
    | none => rfl
    | some i => rw [jsContains, hi] at hc; cases hc

/-- C2 witness: a secure template is unchanged by the `part_000`
rewrite. -/
theorem C2_witness : jsReplace "https://x.test/" "http:" "https:" = "https://x.test/" :=
  C2_schemeNormalization.2.1 "https://x.test/" (by decide)

/-- C5: for every POST endpoint with a `<Param>` list, neither
resolver appends anything to the url — `part_000` keeps the
scheme-normalized template and the second `src/index.js` program keeps
the template verbatim — and both produce the separate
`post_params` field as the `name=value` pairs joined with `&` in
declaration order. -/
theorem C5_postEncoding (t : String) (ty r : Option String) (ps : List Param)
    (mzA mzB : Option (List MozParam)) (h : ps ≠ []) :
    (part000_parseUrlObj ⟨t, some "POST", ty, r, some ps, mzA⟩).url
      = jsReplace t "http:" "https:"
    ∧ (part000_parseUrlObj ⟨t, some "POST", ty, r, some ps, mzA⟩).post_params
      = some (joinAmp ps)
    ∧ (indexjs_parseUrlObj ⟨t, some "POST", ty, r, some ps, mzB⟩).url = t
    ∧ (indexjs_parseUrlObj ⟨t, some "POST", ty, r, some ps, mzB⟩).post_params
      = some (joinAmp ps) := by
  refine ⟨?_, ?_, rfl, ?_⟩
  · have hu : (part000_parseUrlObj ⟨t, some "POST", ty, r, some ps, mzA⟩).url
        = if (some "POST" : Option String) ≠ some "POST" then
            jsReplace t "http:" "https:" ++
              (if jsContains (jsReplace t "http:" "https:") "?" then "" else "?") ++
              joinAmp ps
          else jsReplace t "http:" "https:" := rfl
    rw [hu, if_neg (by simp)]
  · have hp : (part000_parseUrlObj ⟨t, some "POST", ty, r, some ps, mzA⟩).post_params
        = if (some "POST" : Option String) = some "POST" then some (joinAmp ps)
          else none := rfl
    rw [hp, if_pos rfl]
  · have hp : (indexjs_parseUrlObj ⟨t, some "POST", ty, r, some ps, mzB⟩).post_params
        = if (some "POST" : Option String) = some "POST" then some (joinAmp ps)
          else none := rfl
    rw [hp, if_pos rfl]

/-- C5 witness: the POST example given by the spec itself. -/
theorem C5_witness :
    (part000_parseUrlObj ⟨"https://x.test/search", some "POST", none, none,
        some [⟨"q", "{searchTerms}"⟩, ⟨"format", "json"⟩], none⟩).url
      = "https://x.test/search"
    ∧ (part000_parseUrlObj ⟨"https://x.test/search", some "POST", none, none,
        some [⟨"q", "{searchTerms}"⟩, ⟨"format", "json"⟩], none⟩).post_params
      = some "q={searchTerms}&format=json" := by
  have h := C5_postEncoding "https://x.test/search" none none
    [⟨"q", "{searchTerms}"⟩, ⟨"format", "json"⟩] none none (by decide)
  exact ⟨by rw [h.1]; decide, by rw [h.2.1]; decide⟩

/-- C7 counterexample: the `part_000` resolver collapses each MozParam
to a `{name: value}` object, so two endpoints whose vendor params
differ only in their `purpose` tag resolve to identical structures —
the purpose tag is not carried through unmodified. -/
theorem C7_counterexample :
    part000_parseUrlObj ⟨"https://x.test/", none, none, none, none,
        some [⟨"custom", "val", some "searchbar"⟩]⟩
      = part000_parseUrlObj ⟨"https://x.test/", none, none, none, none,
        some [⟨"custom", "val", some "keyword"⟩]⟩
    ∧ (some "searchbar" : Option String) ≠ some "keyword" := by
  exact ⟨by decide, by decide⟩

/-- C7 (amended): the second `src/index.js` resolver carries the
MozParams through as an ordered list of untouched records (name, value,
optional purpose) regardless of method, never merging them into the
url or the standard params; the `part_000` resolver instead reshapes
each MozParam into a single-key `{name: value}` object, dropping the
purpose tag, and stores the non-empty reshaped list in its `params`
field. -/
theorem C7_vendorParams (t : String) (m ty r : Option String)
    (p : Option (List Param)) (mzl : List MozParam) :
    (indexjs_parseUrlObj ⟨t, m, ty, r, p, some mzl⟩).mozParams = mzl
    ∧ (indexjs_parseUrlObj ⟨t, m, ty, r, p, some mzl⟩).url = t
    ∧ (indexjs_parseUrlObj ⟨t, m, ty, r, p, some mzl⟩).params
      = (indexjs_parseUrlObj ⟨t, m, ty, r, p, none⟩).params
    ∧ (part000_parseUrlObj ⟨t, m, ty, r, p, some mzl⟩).params
      = (if mzl.isEmpty then none else some (mzl.map (fun z => (z.name, z.value)))) := by
  refine ⟨rfl, rfl, rfl, ?_⟩
  match mzl with
  | [] => rfl
  | z :: zs => rfl

/-- C3 counterexample: the very vector given by the spec — `foo-en_GB.xml` with no
override entry and `en_GB` outside any known set — resolves to
`en_GB`, not to the claimed fallback `en`; and internal hyphens of the
candidate are not normalized to underscores (`foo-en-GB.xml` yields
`en-GB`). -/
theorem C3_counterexample :
    normaliseLocale "foo-en_GB.xml" = "en_GB"
    ∧ "en_GB" ≠ "en"
    ∧ normaliseLocale "foo-en-GB.xml" = "en-GB"
    ∧ "en-GB" ≠ "en_GB" := by
  exact ⟨by decide, by decide, by decide, by decide⟩

/-- C3 (amended): locale resolution has no override table, no
underscore normalization and no known-locale membership check.  The
second `src/index.js` program returns the characters of the basename
between its first hyphen and the extension verbatim, and `en` exactly
when the basename has no hyphen; the `part_000` variant additionally
forces paths matching its exceptions regex to the no-hyphen case and
hard-codes `amazondotcn` paths to `cn`. -/
theorem C3_localeResolution (file : String) :
    (jsIndexOfSub (lastComponent file) "-" = none → normaliseLocale file = "en")
    ∧ (∀ i, jsIndexOfSub (lastComponent file) "-" = some i →
        normaliseLocale file = jsSliceToNeg4 (lastComponent file) (i + 1))
    ∧ (jsContains file "amazondotcn" = true → part000_locale file = "cn") := by
  refine ⟨?_, ?_, ?_⟩
  · intro h
    simp only [normaliseLocale, h]
  · intro i h
    simp only [normaliseLocale, h]
  · intro h
    unfold part000_locale
    rw [h]
    rfl

/-- C3 witness: the amended resolution applied to a hyphenated
basename and to an `amazondotcn` path. -/
theorem C3_witness :
    normaliseLocale "/g/foo-en-GB.xml" = "en-GB"
    ∧ part000_locale "/g/amazondotcn.xml" = "cn"
    ∧ normaliseLocale "/g/foo.xml" = "en" := by
  refine ⟨?_, ?_, ?_⟩
  · rw [(C3_localeResolution "/g/foo-en-GB.xml").2.1 3 (by decide)]
    decide
  · exact (C3_localeResolution "/g/amazondotcn.xml").2.2 (by decide)
  · exact (C3_localeResolution "/g/foo.xml").1 (by decide)

/-- C8: for a non-empty resolved locale list and no `default_locale`
override, the bundle default locale is `en` when `en` occurs among the
resolved locales and otherwise the first resolved locale in
file-processing order — in both the `part_000` and the second
`src/index.js` variant. -/
theorem C8_defaultLocale (f : RawFile) (fs : List RawFile) :
    manifestDefaultLocale none (part000_locales (f :: fs))
      = some (if (part000_locales (f :: fs)).contains "en" then "en"
              else part000_locale f.path)
    ∧ manifestDefaultLocale none (indexjs_locales (f :: fs))
      = some (if (indexjs_locales (f :: fs)).contains "en" then "en"
              else normaliseLocale f.path) := by
  constructor
  · show defaultLocale (part000_locales (f :: fs)) = _
    unfold defaultLocale
    by_cases h : (part000_locales (f :: fs)).contains "en"
    · rw [if_pos h, if_pos h]
    · rw [if_neg h, if_neg h]
      rfl
  · show defaultLocale (indexjs_locales (f :: fs)) = _
    unfold defaultLocale
    by_cases h : (indexjs_locales (f :: fs)).contains "en"
    · rw [if_pos h, if_pos h]
    · rw [if_neg h, if_neg h]
      rfl

/-- C6 counterexample: the `part_000` extension table yields no
extension for `image/gif` (the claimed fixed table maps it to `gif`),
and the `src/index.js` table reacts to an unlisted type with an
uncaught throw, not a recovered `UnsupportedImageType`. -/
theorem C6_counterexample :
    part000_typeToExtension "image/gif" = none
    ∧ (none : Option String) ≠ some "gif"
    ∧ indexjs_typeToExtension "image/jpeg" = .error "Cant find image/jpeg" := by
  exact ⟨rfl, by decide, rfl⟩

/-- C6 (amended): the `src/index.js` table maps the four ICO spellings
`image/ico`, `image/icon`, `image/x-ico`, `image/x-icon` to `ico`,
`image/png` to `png` and `image/gif` to `gif`, and throws an uncaught
string error for every other content type; the `part_000` table maps
only `image/x-icon` and `image/png` and silently yields `undefined`
otherwise.  The throw is not recovered by omitting the icon field: an
unsupported inline type aborts the engine before any manifest write,
and even a missing icon makes `singleLocaleExtension` throw on
`manifest.icons` access. -/
theorem C6_iconTypeMapping (t : String) :
    (indexjs_typeToExtension t =
      if t = "image/ico" ∨ t = "image/icon" ∨ t = "image/x-ico" ∨ t = "image/x-icon"
      then .ok "ico"
      else if t = "image/png" then .ok "png"
      else if t = "image/gif" then .ok "gif"
      else .error ("Cant find " ++ t))
    ∧ (part000_typeToExtension t =
      if t = "image/x-icon" then some "ico"
      else if t = "image/png" then some "png"
      else none)
    ∧ Ev.threw ∈ indexjs_singleOps "e" "/g/" jpegIconFile
    ∧ Ev.writeFile "tmp/e/manifest.json" ∉ indexjs_singleOps "e" "/g/" jpegIconFile
    ∧ Ev.threw ∈ indexjs_singleOps "n" "/g/" noImageFile := by
  refine ⟨?_, ?_, by decide, by decide, by decide⟩
  · simp only [indexjs_typeToExtension, indexjs_extTable, jsObjGet]
    split_ifs <;> simp_all
  · simp only [part000_typeToExtension, part000_extTable, jsObjGet]

/-- C4 counterexample: one malformed file (root marker absent) in a
three-file group makes the whole engine loop reject — it does not drop
just that locale — and via the sequential awaited driver the whole
batch rejects, the second (fully well-formed) engine never being
processed. -/
theorem C4_counterexample :
    findRootMarker badFile.content = none
    ∧ part000_parseEngineFiles [goodFile, badFile, goodFileFr] = .error .thrown
    ∧ part000_allEngines [[goodFile, badFile, goodFileFr], [goodFile]]
      = .error .thrown := by
  exact ⟨by decide, rfl, rfl⟩

/-- C4 (amended): a malformed descriptor file raises an uncaught
exception: the `parseEngine` loop has no per-file recovery, so the
engine of that file aborts wherever the file sits in its group, and the
sequential awaited batch driver aborts with it — no locale is dropped
with a warning and every later engine goes unprocessed. -/
theorem C4_malformedFileAborts (pre post : List RawFile) (f : RawFile)
    (h : findRootMarker f.content = none) :
    part000_parseEngineFiles (pre ++ f :: post) = .error .thrown
    ∧ ∀ gpre gpost : List (List RawFile),
        part000_allEngines (gpre ++ (pre ++ f :: post) :: gpost) = .error .thrown := by
  have hf : part000_processFile f = .error .thrown := by
    unfold part000_processFile
    rw [h]
  have hA : ∀ pre : List RawFile,
      part000_parseEngineFiles (pre ++ f :: post) = .error .thrown := by
    intro pre
    induction pre with
    | nil =>
      show part000_parseEngineFiles (f :: post) = .error .thrown
      unfold part000_parseEngineFiles
      rw [hf]
    | cons a pre ih =>
      show part000_parseEngineFiles (a :: (pre ++ f :: post)) = .error .thrown
      unfold part000_parseEngineFiles
      cases ha : part000_processFile a with
      | error e => cases e; rfl
      | ok m => rw [ih]
  refine ⟨hA pre, ?_⟩
  intro gpre gpost
  induction gpre with
  | nil =>
    show part000_allEngines ((pre ++ f :: post) :: gpost) = .error .thrown
    unfold part000_allEngines
    rw [hA pre]
  | cons g gpre ih =>
    show part000_allEngines (g :: (gpre ++ (pre ++ f :: post) :: gpost))
      = .error .thrown
    unfold part000_allEngines
    cases hg : part000_parseEngineFiles g with
    | error e => cases e; rfl
    | ok ms => rw [ih]

/-- C4 witness: the abort at a concrete two-file group. -/
theorem C4_witness :
    part000_parseEngineFiles [goodFile, badFile] = .error .thrown :=
  (C4_malformedFileAborts [goodFile] [] badFile (by decide)).1

/-- The file-list fixups never grow a singleton glob result. -/
theorem indexjs_selectFiles_single_len (engine geckoPath : String) (f : RawFile) :
    (indexjs_selectFiles engine geckoPath [f]).length ≤ 1 := by
  unfold indexjs_selectFiles
  split_ifs
  · exact List.length_filter_le _ _
  · exact List.length_filter_le _ _
  · exact Nat.le_refl 1

/-- On at most one file, the dispatch never reads the
staging-directory existence flag. -/
theorem indexjs_dispatchOps_indep (engine geckoPath : String) (b₁ b₂ : Bool)
    (fs : List RawFile) (h : fs.length ≤ 1) :
    indexjs_dispatchOps engine geckoPath b₁ fs
      = indexjs_dispatchOps engine geckoPath b₂ fs := by
  match fs with
  | [] => rfl
  | [f] => rfl
  | f0 :: f1 :: fs =>
    simp only [List.length_cons] at h
    omega

/-- C9 counterexample: a single-file engine in the second
`src/index.js` program is processed by `singleLocaleExtension`, whose
trace is identical whether or not the staging directory already exists
and which writes the manifest into it — the existence check never
happens on this path. -/
theorem C9_counterexample :
    indexjs_engineOps "foo" "/g/" true [fooFile]
      = indexjs_engineOps "foo" "/g/" false [fooFile]
    ∧ Ev.writeFile "tmp/foo/manifest.json"
        ∈ indexjs_engineOps "foo" "/g/" true [fooFile] := by
  exact ⟨rfl, by decide⟩

/-- C9 (amended): in the `part_000` variant the staging-directory
existence check is the very first action and a hard stop — with the
directory present the whole engine trace is one `console.error`
report, nothing thrown and nothing written; the second `src/index.js`
variant checks only on its multi-file path, while its single-file path
(`singleLocaleExtension`) never consults the flag at all and writes
into an existing staging directory silently. -/
theorem C9_outputDirCheck (engine geckoPath : String) (files : List RawFile)
    (f : RawFile) :
    part000_engineOps engine geckoPath true files
      = [Ev.logError ("Destination file " ++ ("tmp/" ++ engine ++ "/") ++
          " already exists")]
    ∧ ∀ b₁ b₂ : Bool, indexjs_engineOps engine geckoPath b₁ [f]
        = indexjs_engineOps engine geckoPath b₂ [f] := by
  refine ⟨rfl, ?_⟩
  intro b₁ b₂
  unfold indexjs_engineOps
  by_cases hy : engine = "yahoo"
  · simp only [if_pos hy]
  · simp only [if_neg hy]
    exact indexjs_dispatchOps_indep engine geckoPath b₁ b₂ _
      (indexjs_selectFiles_single_len engine geckoPath f)

/-- C10: `parseEngine` of the second `src/index.js` program returns
immediately for the engine identity `yahoo` — an empty trace: no file
read, no write, no status line — whatever files exist and whatever the
staging state is; the `yahoo-jp` identity is still processed (its
trace is non-empty). -/
theorem C10_yahooSkipped (geckoPath : String) (b : Bool) (globbed : List RawFile) :
    indexjs_engineOps "yahoo" geckoPath b globbed = []
    ∧ indexjs_engineOps "yahoo-jp" "/g/" false [yahooJpFile] ≠ [] := by
  exact ⟨rfl, by decide⟩
